import Mathlib

/-!
Verification development for the rpi-spi-fb-screensaver repository.

The repository contains three Python screensaver variants sharing a common
structure: `fb_saver_3dtext.py` (bouncing extruded text), `fb_saver_hostname.py`
(single hostname draw at a random position), and `fb_saver_float_hostname.py`
(floating rainbow hostname particles).  This file gives a shallow embedding of
the parts of the code the verified properties concern: the framebuffer device
access (`fb_read` / `fb_write`), the RGB888-to-RGB565 pixel converter, the
input-poll function `touch_event_available`, the bouncing-sprite position
update, and one tick of each variant's main loop (idle detection, frame
capture, restore-on-touch, and the rendering write).

Conventions of the embedding:
* Python floats (monotonic clock values, positions, velocities) are modelled
  as rationals `ℚ`.
* Byte buffers are `List Nat` (each entry one byte value).
* A device I/O failure this tick is an explicit boolean input `ioError`;
  a raised exception that escapes the code is an `Except.error`.
* The drawing-library calls (PIL text rasterisation) are external
  collaborators; one tick is parametric in the function producing the
  rendered bytes, exactly as the engine is parametric in the scene renderer.
* `random.uniform` / `random.randint` draws are modelled as explicit streams
  of draw values threaded through the state.
-/

namespace FbSaver

/-- Display width, from `W, H = 480, 320`. -/
def W : Nat := 480

/-- Display height. -/
def H : Nat := 320

/-- Bytes per pixel, from `BPP = 2`. -/
def BPP : Nat := 2

/-- Full frame size in bytes, from `FRAME_BYTES = W * H * BPP`. -/
def FRAME_BYTES : Nat := W * H * BPP

/-- Idle threshold of `fb_saver_3dtext.py`, from `IDLE_SEC = 600`. -/
def IDLE_SEC : ℚ := 600

/-- Idle threshold of `fb_saver_hostname.py`, from `IDLE_SEC = 10`. -/
def IDLE_SEC_hn : ℚ := 10

/-- Idle threshold of `fb_saver_float_hostname.py`, from `IDLE_SEC = 10`. -/
def IDLE_SEC_float : ℚ := 10

/-- Frame rate of `fb_saver_3dtext.py`, from `FPS = 20`. -/
def FPS : Nat := 20

/-- Frame rate of `fb_saver_float_hostname.py`, from `FPS = 15`. -/
def FPS_float : Nat := 15

/-- Redraw interval of `fb_saver_hostname.py`, from `INTERVAL = 5.0`. -/
def INTERVAL : ℚ := 5

/-- Extrusion depth of the 3d-text variant, from `EXTRUDE = 10`. -/
def EXTRUDE : Nat := 10

/-- Bounce margin of the 3d-text variant, from `margin = 12 + EXTRUDE`. -/
def margin : ℚ := 12 + (EXTRUDE : ℚ)

/-!
## FramebufferDevice

`fb_read` in all three variants reads up to `FRAME_BYTES` bytes and
zero-pads a short read.  `fb_write` in `fb_saver_3dtext.py` and
`fb_saver_float_hostname.py` raises `ValueError("frame size mismatch")`
before any device access when the buffer length is wrong;
`fb_write` in `fb_saver_hostname.py` has no length check.
-/

/-- `fb_read`: read at most `FRAME_BYTES` bytes of the device contents `raw`,
zero-padding a short read, from lines 61-66 of `fb_saver_3dtext.py`
(identical in the other two variants). -/
def fb_read (raw : List Nat) : List Nat :=
  let buf := raw.take FRAME_BYTES
  buf ++ List.replicate (FRAME_BYTES - buf.length) 0

/-- `fb_write` of `fb_saver_3dtext.py` (lines 68-72) and
`fb_saver_float_hostname.py` (lines 144-148): raise on a wrong-length
buffer before touching the device; otherwise the write fails exactly when
the device I/O fails (`io = true`), and on success the written bytes are
returned unmodified. -/
def fb_write (buf : List Nat) (io : Bool) : Except String (List Nat) :=
  if buf.length ≠ FRAME_BYTES then .error "frame size mismatch"
  else if io then .error "DeviceIOError"
  else .ok buf

/-- `fb_write` of `fb_saver_hostname.py` (lines 81-83): no length check at
all; the buffer is written as-is unless the device I/O fails. -/
def fb_write_hn (buf : List Nat) (io : Bool) : Except String (List Nat) :=
  if io then .error "DeviceIOError"
  else .ok buf

/-!
## PixelConverter

`rgb888_to_rgb565_bytes` (identical as `rgb888_to_rgb565` in the hostname
variant): for each pixel pack `((r & 0xF8) << 8) | ((g & 0xFC) << 3) | (b >> 3)`
and emit low byte then high byte, iterating rows `y` then columns `x`.
An image is modelled as a function from coordinates to an (r, g, b) triple.
-/

/-- The 16-bit packed value of one pixel, from line 82 of
`fb_saver_3dtext.py`: `v = ((r & 0xF8) << 8) | ((g & 0xFC) << 3) | (b >> 3)`. -/
def pixPack (r g b : Nat) : Nat :=
  ((r &&& 0xF8) <<< 8) ||| ((g &&& 0xFC) <<< 3) ||| (b >>> 3)

/-- The two bytes one pixel contributes to the output, low byte first, from
lines 83-84: `out[i] = v & 0xFF; out[i+1] = (v >> 8) & 0xFF`. -/
def pixelBytes (p : Nat × Nat × Nat) : List Nat :=
  let v := pixPack p.1 p.2.1 p.2.2
  [v &&& 0xFF, (v >>> 8) &&& 0xFF]

/-- `rgb888_to_rgb565_bytes`, lines 74-86 of `fb_saver_3dtext.py`: iterate
`y` over the rows and `x` over the columns, appending the two bytes of each
pixel. -/
def rgb888_to_rgb565_bytes (px : Nat → Nat → Nat × Nat × Nat) : List Nat :=
  (List.range H).flatMap (fun y => (List.range W).flatMap (fun x => pixelBytes (px x y)))

/-- The significant bits of a pixel: the converter masks red with `0xF8`,
green with `0xFC`, and keeps `b >> 3`, i.e. blue masked with `0xF8`. -/
def maskPix (p : Nat × Nat × Nat) : Nat × Nat × Nat :=
  (p.1 &&& 0xF8, p.2.1 &&& 0xFC, p.2.2 &&& 0xF8)

/-- A pixel with 8-bit components. -/
def pix8 (p : Nat × Nat × Nat) : Prop :=
  p.1 < 256 ∧ p.2.1 < 256 ∧ p.2.2 < 256

/-!
## InputMonitor

`touch_event_available` iterates the batch of events yielded by the
non-blocking `dev.read()`.  A `BlockingIOError` (no data ready) or `OSError`
is caught and reported as `false`; this is modelled by the input being
`none`.  The 3d-text and float variants return `True` at the first event
whose type is `EV_KEY`, `EV_ABS` or `EV_REL`; the hostname variant returns
`True` at the first event of any type.
-/

/-- The event categories relevant to the code: the three it tests for
(`EV_KEY`, `EV_ABS`, `EV_REL`), plus `EV_SYN` and a catch-all for the rest. -/
inductive InputEv where
  | key
  | abs
  | rel
  | syn
  | other
deriving DecidableEq

/-- Whether an event's type is in `(ecodes.EV_KEY, ecodes.EV_ABS, ecodes.EV_REL)`. -/
def isActivity : InputEv → Bool
  | .key => true
  | .abs => true
  | .rel => true
  | _ => false

/-- `touch_event_available` of `fb_saver_3dtext.py` (lines 50-59) and
`fb_saver_float_hostname.py` (lines 126-135): `none` models a read that
raised `BlockingIOError`/`OSError`; otherwise return true at the first
event in the batch whose type is key, absolute-axis or relative-axis. -/
def touch_event_available (r : Option (List InputEv)) : Bool :=
  match r with
  | none => false
  | some evs => evs.any isActivity

/-- `touch_event_available` of `fb_saver_hostname.py` (lines 64-72):
return true at the first event of the batch, of any type. -/
def touch_event_available_hn (r : Option (List InputEv)) : Bool :=
  match r with
  | none => false
  | some evs => !evs.isEmpty

/-!
## IdleScreensaverEngine: the 3d-text variant (`fb_saver_3dtext.py` main loop)

One iteration of the `while True:` loop (lines 156-204) is a `tick`.  The
inputs a tick samples from the world are: whether `touch_event_available`
returned true, the monotonic-clock value `now`, the raw device contents
(for `fb_read`), and whether device I/O fails this tick.  The tick is
parametric in `render`, standing for `render_3d_text_frame` (PIL drawing,
an external collaborator), and in the text dimensions `tw`, `th` measured
from the font at startup.  An exception escaping the loop body is an
`Except.error`.
-/

/-- The observable inputs of one iteration of the main loop. -/
structure TickInput where
  touch : Bool
  now : ℚ
  device : List Nat
  ioError : Bool

/-- Events a tick emits: a successful restore write with its bytes, a
swallowed restore failure, a frame capture with the bytes read, and a
successful render write with its bytes. -/
inductive Ev where
  | restoreWrite (buf : List Nat)
  | restoreFailed
  | capture (buf : List Nat)
  | renderWrite (buf : List Nat)
deriving DecidableEq

/-- The mutable loop state of `fb_saver_3dtext.py` `main`: `last_activity`,
`saver_on`, `saved`, the sprite position `x, y` and velocity `vx, vy`, the
animation clock origin `t0`, and `next_frame`. -/
structure St where
  lastActivity : ℚ
  saverOn : Bool
  saved : Option (List Nat)
  x : ℚ
  y : ℚ
  vx : ℚ
  vy : ℚ
  t0 : ℚ
  nextFrame : ℚ
deriving DecidableEq

/-- The initial loop state set up in `main` (lines 138-154): awake, nothing
saved, `x, y = 40.0, 80.0`, `vx, vy = 2.6, 1.9`, clocks at the startup
monotonic time `t`. -/
def initSt (t : ℚ) : St :=
  { lastActivity := t, saverOn := false, saved := none,
    x := 40, y := 80, vx := 13/5, vy := 19/10, t0 := t, nextFrame := 0 }

/-- The per-frame position update and clamp of the bouncing sprite,
lines 178-194 of `fb_saver_3dtext.py`: advance by the velocity, then clamp
to `margin` on the low side (making the velocity positive) and to
`W - margin - tw` / `H - margin - th` on the high side (making it
negative). -/
def bounceUpdate (tw th : ℚ) (x y vx vy : ℚ) : ℚ × ℚ × ℚ × ℚ :=
  let x := x + vx
  let y := y + vy
  let p1 := if x < margin then (margin, |vx|) else (x, vx)
  let q1 := if y < margin then (margin, |vy|) else (y, vy)
  let p2 := if p1.1 + tw > (W : ℚ) - margin then ((W : ℚ) - margin - tw, -|p1.2|) else p1
  let q2 := if q1.1 + th > (H : ℚ) - margin then ((H : ℚ) - margin - th, -|q1.2|) else q1
  (p2.1, q2.1, p2.2, q2.2)

/-- Lines 157-166: if `touch_event_available(dev)`, set `last_activity`,
and when the saver is on, best-effort write the saved frame back
(`try: fb_write(saved) except Exception: pass`), then leave saver mode and
drop the saved frame. -/
def touchStep (s : St) (inp : TickInput) : St × List Ev :=
  if inp.touch then
    let s1 := { s with lastActivity := inp.now }
    if s1.saverOn then
      let evs :=
        match s1.saved with
        | some buf =>
          match fb_write buf inp.ioError with
          | .ok b => [Ev.restoreWrite b]
          | .error _ => [Ev.restoreFailed]
        | none => []
      ({ s1 with saverOn := false, saved := none }, evs)
    else (s1, [])
  else (s, [])

/-- Lines 170-174: when awake and idle strictly longer than `IDLE_SEC`,
capture the framebuffer (`saved = fb_read()`), enter saver mode, and reset
the animation clock and frame pacing.  `fb_read` raises on an I/O failure,
which escapes the loop. -/
def captureStep (inp : TickInput) : St × List Ev → Except String (St × List Ev) :=
  fun se =>
    let s := se.1
    if s.saverOn = false ∧ inp.now - s.lastActivity > IDLE_SEC then
      if inp.ioError then .error "DeviceIOError"
      else
        let buf := fb_read inp.device
        .ok ({ s with saved := some buf, saverOn := true, t0 := inp.now, nextFrame := 0 },
          se.2 ++ [Ev.capture buf])
    else .ok se

/-- Lines 176-200: when the saver is on and the frame is due, update the
sprite position, render, write the frame (a failure here is not caught and
escapes the loop), and schedule the next frame at `now + 1.0 / max(FPS, 1)`. -/
def renderStep (tw th : ℚ) (render : ℚ → ℚ → ℚ → List Nat) (inp : TickInput) :
    St × List Ev → Except String (St × List Ev) :=
  fun se =>
    let s := se.1
    if s.saverOn = true ∧ inp.now ≥ s.nextFrame then
      let p := bounceUpdate tw th s.x s.y s.vx s.vy
      let s1 := { s with x := p.1, y := p.2.1, vx := p.2.2.1, vy := p.2.2.2 }
      let frame := render (inp.now - s1.t0) s1.x s1.y
      match fb_write frame inp.ioError with
      | .ok b =>
        .ok ({ s1 with nextFrame := inp.now + 1 / ((max FPS 1 : Nat) : ℚ) },
          se.2 ++ [Ev.renderWrite b])
      | .error e => .error e
    else .ok se

/-- One iteration of the `fb_saver_3dtext.py` main loop, lines 156-204:
touch handling first, then the idle check, then the rendering step. -/
def tick3d (tw th : ℚ) (render : ℚ → ℚ → ℚ → List Nat) (s : St) (inp : TickInput) :
    Except String (St × List Ev) :=
  captureStep inp (touchStep s inp) >>= renderStep tw th render inp

/-- Run a list of ticks in sequence, collecting all events; an escaping
exception aborts the run. -/
def run3d (tw th : ℚ) (render : ℚ → ℚ → ℚ → List Nat) :
    St → List TickInput → Except String (St × List Ev)
  | s, [] => .ok (s, [])
  | s, inp :: rest =>
    match tick3d tw th render s inp with
    | .error e => .error e
    | .ok (s1, evs1) =>
      match run3d tw th render s1 rest with
      | .error e => .error e
      | .ok (s2, evs2) => .ok (s2, evs1 ++ evs2)

/-!
## The hostname variant (`fb_saver_hostname.py` main loop)

Same structure, lines 111-142, with two differences that matter here: the
restore write on touch is *not* wrapped in `try/except`, and `fb_write`
performs no length check.  The random draw positions use `random.randint`,
modelled by a stream of natural-number draws in the state.
-/

/-- The mutable loop state of `fb_saver_hostname.py` `main`, plus the
stream of pending `random.randint` draws. -/
structure HSt where
  lastActivity : ℚ
  saverOn : Bool
  saved : Option (List Nat)
  nextDraw : ℚ
  rng : List Nat
deriving DecidableEq

/-- `random.randint(a, b)` (both ends inclusive): consume one draw from the
stream and map it into `[a, b]`. -/
def randint (a b : Nat) (rng : List Nat) : Nat × List Nat :=
  match rng with
  | [] => (a, [])
  | d :: rest => (a + d % (b - a + 1), rest)

/-- Lines 112-117: on touch, update `last_activity`; when the saver is on,
`fb_write(saved)` with no `try/except` — a write failure (or a `None`
frame) raises out of the loop — then leave saver mode. -/
def touchStepHn (s : HSt) (inp : TickInput) : Except String (HSt × List Ev) :=
  if inp.touch then
    let s1 := { s with lastActivity := inp.now }
    if s1.saverOn then
      match s1.saved with
      | some buf =>
        match fb_write_hn buf inp.ioError with
        | .ok b => .ok ({ s1 with saverOn := false, saved := none }, [Ev.restoreWrite b])
        | .error e => .error e
      | none => .error "TypeError"
    else .ok (s1, [])
  else .ok (s, [])

/-- Lines 121-124: when awake and idle strictly longer than `IDLE_SEC`,
capture the framebuffer and enter saver mode. -/
def captureStepHn (inp : TickInput) : HSt × List Ev → Except String (HSt × List Ev) :=
  fun se =>
    let s := se.1
    if s.saverOn = false ∧ inp.now - s.lastActivity > IDLE_SEC_hn then
      if inp.ioError then .error "DeviceIOError"
      else
        let buf := fb_read inp.device
        .ok ({ s with saved := some buf, saverOn := true, nextDraw := 0 },
          se.2 ++ [Ev.capture buf])
    else .ok se

/-- Lines 126-140: when the saver is on and the draw is due, pick a random
position with `random.randint(0, max(0, W - tw))` and likewise for `y`,
draw the hostname (rendering is the external parameter `renderBytes`),
write the frame — `fb_write` has no length check, so the write fails only
on device I/O failure, which is not caught — and schedule the next draw. -/
def renderStepHn (tw th : Nat) (renderBytes : Nat → Nat → List Nat) (inp : TickInput) :
    HSt × List Ev → Except String (HSt × List Ev) :=
  fun se =>
    let s := se.1
    if s.saverOn = true ∧ inp.now ≥ s.nextDraw then
      let xr := randint 0 (max 0 (W - tw)) s.rng
      let yr := randint 0 (max 0 (H - th)) xr.2
      let frame := renderBytes xr.1 yr.1
      match fb_write_hn frame inp.ioError with
      | .ok b =>
        .ok ({ s with rng := yr.2, nextDraw := inp.now + INTERVAL }, se.2 ++ [Ev.renderWrite b])
      | .error e => .error e
    else .ok se

/-- One iteration of the `fb_saver_hostname.py` main loop, lines 111-142. -/
def tickHn (tw th : Nat) (renderBytes : Nat → Nat → List Nat) (s : HSt) (inp : TickInput) :
    Except String (HSt × List Ev) :=
  touchStepHn s inp >>= captureStepHn inp >>= renderStepHn tw th renderBytes inp

/-!
## The float-hostname variant (`fb_saver_float_hostname.py` main loop)

The scene state is a list of particles.  `random.uniform` / `random.randint`
draws are modelled by two streams in an `FRng` value threaded through
particle creation, exactly in the order the Python consumes them.
-/

/-- A floating hostname particle, from the `@dataclass Particle`
(lines 55-64). -/
structure Particle where
  text : String
  x : ℚ
  y : ℚ
  vy : ℚ
  angle : ℚ
  omega : ℚ
  size : Nat
  hueOffset : ℚ
deriving DecidableEq

/-- Motion tuning constants of `fb_saver_float_hostname.py`, lines 38-43. -/
def SPEED_MIN : ℚ := 12

/-- Upper bound of the upward speed. -/
def SPEED_MAX : ℚ := 40

/-- Lower bound of the rotation speed. -/
def ROT_SPEED_MIN : ℚ := -90

/-- Upper bound of the rotation speed. -/
def ROT_SPEED_MAX : ℚ := 90

/-- Smallest font size a particle may draw with. -/
def SIZE_MIN : Nat := 14

/-- Largest font size a particle may draw with. -/
def SIZE_MAX : Nat := 44

/-- Number of particles, from `NUM_PARTICLES = 10`. -/
def NUM_PARTICLES : Nat := 10

/-- The streams of pending random draws: `qs` for `random.uniform`
(unit-interval draws), `ns` for `random.randint`. -/
structure FRng where
  qs : List ℚ
  ns : List Nat
deriving DecidableEq

/-- `random.uniform(a, b) = a + u * (b - a)` for a unit draw `u` consumed
from the stream. -/
def uniformDraw (a b : ℚ) (r : FRng) : ℚ × FRng :=
  match r.qs with
  | [] => (a, r)
  | u :: rest => (a + u * (b - a), { r with qs := rest })

/-- `random.randint(a, b)` on the natural-number stream. -/
def randintDraw (a b : Nat) (r : FRng) : Nat × FRng :=
  match r.ns with
  | [] => (a, r)
  | d :: rest => (a + d % (b - a + 1), { r with ns := rest })

/-- `new_particle()`, lines 169-178 of `fb_saver_float_hostname.py`:
spawn at a random x across the screen and a random y below the bottom edge,
with random upward speed, rotation angle and speed, font size and hue
offset, consuming the draws in the order the Python does. -/
def new_particle (host : String) (r : FRng) : Particle × FRng :=
  let xr := uniformDraw 0 (W : ℚ) r
  let yr := uniformDraw (H : ℚ) ((H : ℚ) + 200) xr.2
  let vr := uniformDraw SPEED_MIN SPEED_MAX yr.2
  let ar := uniformDraw 0 360 vr.2
  let or_ := uniformDraw ROT_SPEED_MIN ROT_SPEED_MAX ar.2
  let sr := randintDraw SIZE_MIN SIZE_MAX or_.2
  let hr := uniformDraw 0 360 sr.2
  ({ text := host, x := xr.1, y := yr.1, vy := vr.1, angle := ar.1,
     omega := or_.1, size := sr.1, hueOffset := hr.1 }, hr.2)

/-- Build the particle list `[new_particle() for _ in range(n)]`. -/
def mkParticles (host : String) : Nat → FRng → List Particle × FRng
  | 0, r => ([], r)
  | n + 1, r =>
    let pr := new_particle host r
    let rest := mkParticles host n pr.2
    (pr.1 :: rest.1, rest.2)

/-- Python's float modulo for a positive modulus: `a % b = a - b * ⌊a / b⌋`. -/
def qmod (a b : ℚ) : ℚ := a - b * (⌊a / b⌋ : ℚ)

/-- The particle update loop at the head of `render_frame`
(lines 182-189): move each particle up by `vy * dt`, advance its angle
modulo 360, and respawn it entirely when it has risen above `y < -260`. -/
def updateParticles (host : String) (dt : ℚ) : List Particle → FRng → List Particle × FRng
  | [], r => ([], r)
  | p :: ps, r =>
    let p1 := { p with y := p.y - p.vy * dt, angle := qmod (p.angle + p.omega * dt) 360 }
    let pr := if p1.y < -260 then new_particle host r else (p1, r)
    let rest := updateParticles host dt ps pr.2
    (pr.1 :: rest.1, rest.2)

/-- The mutable loop state of `fb_saver_float_hostname.py` `main`. -/
structure FSt where
  lastActivity : ℚ
  saverOn : Bool
  saved : Option (List Nat)
  particles : List Particle
  lastT : ℚ
  nextFrame : ℚ
  rng : FRng
deriving DecidableEq

/-- Lines 248-259: on touch, update `last_activity`; when the saver is on,
best-effort restore (`try/except pass`), leave saver mode, drop the saved
frame, and reset `last_t` and `next_frame`. -/
def touchStepF (s : FSt) (inp : TickInput) : FSt × List Ev :=
  if inp.touch then
    let s1 := { s with lastActivity := inp.now }
    if s1.saverOn then
      let evs :=
        match s1.saved with
        | some buf =>
          match fb_write buf inp.ioError with
          | .ok b => [Ev.restoreWrite b]
          | .error _ => [Ev.restoreFailed]
        | none => []
      ({ s1 with saverOn := false, saved := none, lastT := inp.now, nextFrame := 0 }, evs)
    else (s1, [])
  else (s, [])

/-- Lines 263-268: when awake and idle strictly longer than `IDLE_SEC`,
capture the framebuffer, enter saver mode, and rebuild the whole particle
list from fresh random draws. -/
def captureStepF (host : String) (inp : TickInput) :
    FSt × List Ev → Except String (FSt × List Ev) :=
  fun se =>
    let s := se.1
    if s.saverOn = false ∧ inp.now - s.lastActivity > IDLE_SEC_float then
      if inp.ioError then .error "DeviceIOError"
      else
        let buf := fb_read inp.device
        let ps := mkParticles host NUM_PARTICLES s.rng
        .ok ({ s with
                saved := some buf
                saverOn := true
                particles := ps.1
                rng := ps.2
                lastT := inp.now
                nextFrame := 0 }, se.2 ++ [Ev.capture buf])
    else .ok se

/-- Lines 270-277: when the saver is on and the frame is due, compute
`dt = max(0.001, now - last_t)`, update the particles (respawning the ones
that left the top), render them (the external parameter `renderBytes`),
write the frame (not caught), and schedule the next frame. -/
def renderStepF (host : String) (renderBytes : List Particle → List Nat) (inp : TickInput) :
    FSt × List Ev → Except String (FSt × List Ev) :=
  fun se =>
    let s := se.1
    if s.saverOn = true ∧ inp.now ≥ s.nextFrame then
      let dt := max (1/1000 : ℚ) (inp.now - s.lastT)
      let ur := updateParticles host dt s.particles s.rng
      let frame := renderBytes ur.1
      match fb_write frame inp.ioError with
      | .ok b =>
        .ok ({ s with
                particles := ur.1
                rng := ur.2
                lastT := inp.now
                nextFrame := inp.now + 1 / ((max FPS_float 1 : Nat) : ℚ) },
          se.2 ++ [Ev.renderWrite b])
      | .error e => .error e
    else .ok se

/-- One iteration of the `fb_saver_float_hostname.py` main loop,
lines 247-279. -/
def tickF (host : String) (renderBytes : List Particle → List Nat) (s : FSt) (inp : TickInput) :
    Except String (FSt × List Ev) :=
  captureStepF host inp (touchStepF s inp) >>= renderStepF host renderBytes inp

/-- A frame of all-zero bytes, used as a stand-in rendered frame. -/
def zeroFrame : List Nat := List.replicate FRAME_BYTES 0

/-!
## Supporting lemmas
-/

/-- `fb_read` always returns exactly `FRAME_BYTES` bytes. -/
theorem fb_read_length (raw : List Nat) : (fb_read raw).length = FRAME_BYTES := by
  simp only [fb_read, List.length_append, List.length_take, List.length_replicate]
  omega

set_option maxRecDepth 8000 in
/-- Masking an 8-bit value with `0xF8` keeps exactly its top five bits. -/
theorem and_248_eq : ∀ r < 256, r &&& 248 = r / 8 * 8 := by decide

set_option maxRecDepth 8000 in
/-- Masking an 8-bit value with `0xFC` keeps exactly its top six bits. -/
theorem and_252_eq : ∀ g < 256, g &&& 252 = g / 4 * 4 := by decide

set_option maxRecDepth 100000 in
set_option maxHeartbeats 2000000 in
/-- Bitwise or of the three disjoint RGB565 fields is their sum. -/
theorem lor_fields_eq_add :
    ∀ a < 32, ∀ c < 64, ∀ d < 32, (a * 2048 ||| c * 32) ||| d = a * 2048 + c * 32 + d := by
  decide

/-- Characterisation of the packed pixel value on 8-bit components: the top
5 bits of red, top 6 of green and top 5 of blue, truncated (not rounded),
in the bit layout `rrrrrggggggbbbbb`. -/
theorem pixPack_char (r g b : Nat) (hr : r < 256) (hg : g < 256) (hb : b < 256) :
    pixPack r g b = r / 8 * 2048 + g / 4 * 32 + b / 8 := by
  have h1 : r &&& 248 = r / 8 * 8 := and_248_eq r hr
  have h2 : g &&& 252 = g / 4 * 4 := and_252_eq g hg
  have hb8 : b >>> 3 = b / 8 := by
    simp [Nat.shiftRight_eq_div_pow]
  have e1 : (r &&& 0xF8) <<< 8 = r / 8 * 2048 := by
    rw [h1, Nat.shiftLeft_eq]
    omega
  have e2 : (g &&& 0xFC) <<< 3 = g / 4 * 32 := by
    rw [h2, Nat.shiftLeft_eq]
    omega
  have ha : r / 8 < 32 := by omega
  have hc : g / 4 < 64 := by omega
  have hd : b / 8 < 32 := by omega
  calc pixPack r g b = (r / 8 * 2048 ||| g / 4 * 32) ||| b / 8 := by
        rw [pixPack, e1, e2, hb8]
    _ = r / 8 * 2048 + g / 4 * 32 + b / 8 := lor_fields_eq_add _ ha _ hc _ hd

/-- A flat map of constant-length chunks over `List.range` has length
`L * n`. -/
theorem flatMap_range_length (g : Nat → List Nat) (L : Nat) (hg : ∀ y, (g y).length = L) :
    ∀ n, ((List.range n).flatMap g).length = L * n := by
  intro n
  induction n with
  | zero => simp
  | succ m ih =>
    rw [List.range_succ, List.flatMap_append, List.length_append, ih, Nat.mul_succ]
    simp [hg]

/-- Indexing into a flat map of constant-length chunks over `List.range`:
position `L * y + j` lands in chunk `y` at offset `j`. -/
theorem flatMap_range_getElem (g : Nat → List Nat) (L : Nat) (hg : ∀ y, (g y).length = L) :
    ∀ n y j, y < n → j < L → ((List.range n).flatMap g)[L * y + j]? = (g y)[j]? := by
  intro n
  induction n with
  | zero => intro y j hy _; omega
  | succ m ih =>
    intro y j hy hj
    rw [List.range_succ, List.flatMap_append]
    by_cases h : y < m
    · rw [List.getElem?_append_left]
      · exact ih y j h hj
      · rw [flatMap_range_length g L hg m]
        have h1 : L * (y + 1) ≤ L * m := Nat.mul_le_mul_left L h
        rw [Nat.mul_succ] at h1
        omega
    · have hym : y = m := by omega
      subst hym
      have hlen : ((List.range y).flatMap g).length = L * y :=
        flatMap_range_length g L hg y
      rw [List.getElem?_append_right (by omega)]
      rw [hlen]
      have : L * y + j - L * y = j := by omega
      rw [this]
      simp

/-- Each pixel contributes exactly two bytes. -/
theorem pixelBytes_length (p : Nat × Nat × Nat) : (pixelBytes p).length = 2 := rfl

/-- One row of the converted image is `2 * W` bytes. -/
theorem row_length (px : Nat → Nat → Nat × Nat × Nat) (y : Nat) :
    ((List.range W).flatMap (fun x => pixelBytes (px x y))).length = 2 * W :=
  flatMap_range_length (fun x => pixelBytes (px x y)) 2
    (fun x => pixelBytes_length (px x y)) W

/-- The converted output indexed at pixel `(x, y)`: byte `2 * (y * W + x)` is
the low byte of the packed value and the next byte is the high byte. -/
theorem rgb565_getElem (px : Nat → Nat → Nat × Nat × Nat) (x y : Nat)
    (hx : x < W) (hy : y < H) :
    (rgb888_to_rgb565_bytes px)[2 * (y * W + x)]? =
      some (pixPack (px x y).1 (px x y).2.1 (px x y).2.2 &&& 0xFF) ∧
    (rgb888_to_rgb565_bytes px)[2 * (y * W + x) + 1]? =
      some ((pixPack (px x y).1 (px x y).2.1 (px x y).2.2 >>> 8) &&& 0xFF) := by
  have hrow : ∀ j, j < 2 * W →
      (rgb888_to_rgb565_bytes px)[2 * W * y + j]? =
        ((List.range W).flatMap (fun x => pixelBytes (px x y)))[j]? := by
    intro j hj
    exact flatMap_range_getElem _ (2 * W) (fun y => row_length px y) H y j hy hj
  have hpix : ∀ jj, jj < 2 →
      ((List.range W).flatMap (fun x => pixelBytes (px x y)))[2 * x + jj]? =
        (pixelBytes (px x y))[jj]? := by
    intro jj hjj
    exact flatMap_range_getElem (fun x => pixelBytes (px x y)) 2
      (fun x => pixelBytes_length (px x y)) W x jj hx hjj
  have hidx0 : 2 * (y * W + x) = 2 * W * y + 2 * x := by ring
  have hidx1 : 2 * (y * W + x) + 1 = 2 * W * y + (2 * x + 1) := by ring
  constructor
  · rw [hidx0, show 2 * x = 2 * x + 0 by ring, hrow (2 * x + 0) (by omega),
      hpix 0 (by omega)]
    rfl
  · rw [hidx1, hrow (2 * x + 1) (by omega), hpix 1 (by omega)]
    rfl

/-- C2 counterexample: in the hostname variant, a 7-byte buffer (well short
of `FRAME_BYTES`) is written as-is; no frame-size error is raised. -/
theorem C2_counterexample :
    fb_write_hn (List.replicate 7 0) false = .ok (List.replicate 7 0) ∧
    (List.replicate 7 0).length ≠ FRAME_BYTES := by
  constructor
  · rfl
  · decide

/-- C2 (amended): in the 3d-text and float variants, `fb_write` with a
buffer of any length other than `FRAME_BYTES` raises the frame-size error
and performs no I/O (even when the device itself would fail), and a
correct-length buffer is written unmodified; the hostname variant's
`fb_write` performs no length check and writes any buffer as-is. -/
theorem C2_write_size_enforcement :
    (∀ (buf : List Nat) (io : Bool), buf.length ≠ FRAME_BYTES →
      fb_write buf io = .error "frame size mismatch") ∧
    (∀ buf : List Nat, buf.length = FRAME_BYTES → fb_write buf false = .ok buf) ∧
    (∀ buf : List Nat, fb_write_hn buf false = .ok buf) := by
  refine ⟨?_, ?_, ?_⟩
  · intro buf io h
    simp [fb_write, h]
  · intro buf h
    simp [fb_write, h]
  · intro buf
    rfl

/-- Witness for C2: concrete applications of the size-enforcement theorem. -/
theorem C2_write_size_enforcement_witness :
    fb_write [0] true = .error "frame size mismatch" ∧
    fb_write zeroFrame false = .ok zeroFrame ∧
    fb_write_hn [] false = .ok [] :=
  ⟨C2_write_size_enforcement.1 [0] true (by decide),
   C2_write_size_enforcement.2.1 zeroFrame (by simp [zeroFrame]),
   C2_write_size_enforcement.2.2 []⟩

/-- C4 counterexample: the hostname variant's poll returns `true` for a
batch holding only an `EV_SYN` event, which is in none of the key,
absolute-axis or relative-axis categories. -/
theorem C4_counterexample :
    touch_event_available_hn (some [InputEv.syn]) = true ∧
    [InputEv.syn].any isActivity = false := by
  decide

/-- C4 (amended): the 3d-text and float variants return true iff the batch
holds at least one key, absolute-axis or relative-axis event; the hostname
variant returns true iff the batch holds at least one event of any type;
in every variant a read that yields no data (or fails) reports false.
Draining of the device queue is a property of the external `evdev` read
call, not of this code. -/
theorem C4_poll_semantics :
    (∀ evs : List InputEv,
      (touch_event_available (some evs) = true ↔ ∃ e ∈ evs, isActivity e = true)) ∧
    touch_event_available none = false ∧
    (∀ evs : List InputEv,
      (touch_event_available_hn (some evs) = true ↔ evs ≠ [])) ∧
    touch_event_available_hn none = false := by
  refine ⟨?_, rfl, ?_, rfl⟩
  · intro evs
    simp [touch_event_available, List.any_eq_true]
  · intro evs
    simp [touch_event_available_hn]

/-- C6: bit-packing correctness of the pixel converter.  The output bytes
at pixel `(x, y)` are the low byte then the high byte of the packed value;
the packed value keeps the top 5 bits of red, top 6 of green and top 5 of
blue, truncating the rest; and the three sample pixels pack as specified. -/
theorem C6_bit_packing :
    (∀ (px : Nat → Nat → Nat × Nat × Nat) (x y : Nat), x < W → y < H →
      (rgb888_to_rgb565_bytes px)[2 * (y * W + x)]? =
        some (pixPack (px x y).1 (px x y).2.1 (px x y).2.2 &&& 0xFF) ∧
      (rgb888_to_rgb565_bytes px)[2 * (y * W + x) + 1]? =
        some ((pixPack (px x y).1 (px x y).2.1 (px x y).2.2 >>> 8) &&& 0xFF)) ∧
    (∀ r g b : Nat, r < 256 → g < 256 → b < 256 →
      pixPack r g b = r / 8 * 2048 + g / 4 * 32 + b / 8) ∧
    pixPack 255 255 255 = 0xFFFF ∧ pixPack 0 0 0 = 0x0000 ∧ pixPack 248 0 0 = 0xF800 := by
  refine ⟨?_, pixPack_char, by decide, by decide, by decide⟩
  intro px x y hx hy
  exact rgb565_getElem px x y hx hy

/-- Witness for C6: the white image evaluated at pixel `(0, 0)` and the
characterisation at `(255, 255, 255)`. -/
theorem C6_bit_packing_witness :
    ((rgb888_to_rgb565_bytes (fun _ _ => (255, 255, 255)))[2 * (0 * W + 0)]? =
      some (pixPack 255 255 255 &&& 0xFF) ∧
     (rgb888_to_rgb565_bytes (fun _ _ => (255, 255, 255)))[2 * (0 * W + 0) + 1]? =
      some ((pixPack 255 255 255 >>> 8) &&& 0xFF)) ∧
    pixPack 255 255 255 = 255 / 8 * 2048 + 255 / 4 * 32 + 255 / 8 :=
  ⟨C6_bit_packing.1 (fun _ _ => (255, 255, 255)) 0 0 (by decide) (by decide),
   C6_bit_packing.2.1 255 255 255 (by decide) (by decide) (by decide)⟩

/-- On 8-bit blue, the shift `b >>> 3` only depends on `b &&& 0xF8`. -/
theorem shiftRight_of_mask (b : Nat) (hb : b < 256) : b >>> 3 = (b &&& 248) / 8 := by
  rw [and_248_eq b hb, Nat.shiftRight_eq_div_pow]
  omega

/-- The two output bytes of a pixel depend only on its masked value. -/
theorem pixelBytes_mask_congr (p q : Nat × Nat × Nat) (hp : pix8 p) (hq : pix8 q)
    (h : maskPix p = maskPix q) : pixelBytes p = pixelBytes q := by
  have h1 : p.1 &&& 0xF8 = q.1 &&& 0xF8 := by
    simpa [maskPix] using congrArg Prod.fst h
  have h2 : p.2.1 &&& 0xFC = q.2.1 &&& 0xFC := by
    simpa [maskPix] using congrArg (fun t : Nat × Nat × Nat => t.2.1) h
  have h3 : p.2.2 &&& 0xF8 = q.2.2 &&& 0xF8 := by
    simpa [maskPix] using congrArg (fun t : Nat × Nat × Nat => t.2.2) h
  have hpack : pixPack p.1 p.2.1 p.2.2 = pixPack q.1 q.2.1 q.2.2 := by
    rw [pixPack, pixPack, shiftRight_of_mask p.2.2 hp.2.2, shiftRight_of_mask q.2.2 hq.2.2,
      h1, h2, h3]
  simp [pixelBytes, hpack]

/-- Congruence for `flatMap` over pointwise-equal chunk functions. -/
theorem flatMap_congr_mem {α : Type} (l : List α) (f g : α → List Nat)
    (h : ∀ a ∈ l, f a = g a) : l.flatMap f = l.flatMap g := by
  induction l with
  | nil => rfl
  | cons a t ih =>
    simp only [List.flatMap_cons]
    rw [h a (by simp), ih (fun b hb => h b (by simp [hb]))]

/-- C10: low-bit noninterference of the converter.  Two images of 8-bit
pixels that agree after masking each pixel with `(0xF8, 0xFC, 0xF8)`
convert to byte-identical output: the discarded low bits never influence
any output byte. -/
theorem C10_low_bit_noninterference (px1 px2 : Nat → Nat → Nat × Nat × Nat)
    (h8a : ∀ x y, x < W → y < H → pix8 (px1 x y))
    (h8b : ∀ x y, x < W → y < H → pix8 (px2 x y))
    (hm : ∀ x y, x < W → y < H → maskPix (px1 x y) = maskPix (px2 x y)) :
    rgb888_to_rgb565_bytes px1 = rgb888_to_rgb565_bytes px2 := by
  unfold rgb888_to_rgb565_bytes
  apply flatMap_congr_mem
  intro y hy
  apply flatMap_congr_mem
  intro x hx
  have hx' : x < W := List.mem_range.mp hx
  have hy' : y < H := List.mem_range.mp hy
  exact pixelBytes_mask_congr _ _ (h8a x y hx' hy') (h8b x y hx' hy') (hm x y hx' hy')

/-- Witness for C10: an image of pixels `(7, 3, 7)` (only low bits set)
converts identically to the black image. -/
theorem C10_low_bit_noninterference_witness :
    rgb888_to_rgb565_bytes (fun _ _ => (7, 3, 7)) =
      rgb888_to_rgb565_bytes (fun _ _ => (0, 0, 0)) :=
  C10_low_bit_noninterference _ _
    (fun _ _ _ _ => by simp [pix8]) (fun _ _ _ _ => by simp [pix8])
    (fun _ _ _ _ => by decide)

/-- The bounce update applied over a sequence of frames. -/
def bounceIter (tw th : ℚ) : Nat → ℚ × ℚ × ℚ × ℚ → ℚ × ℚ × ℚ × ℚ
  | 0, s => s
  | n + 1, s =>
    let s1 := bounceIter tw th n s
    bounceUpdate tw th s1.1 s1.2.1 s1.2.2.1 s1.2.2.2

/-- After one position update and clamp, the sprite's bounding box lies
inside the margins, whatever the previous position and velocity were,
provided the text fits between the margins. -/
theorem bounceUpdate_contained (tw th x y vx vy : ℚ)
    (htw : tw ≤ (W : ℚ) - 2 * margin) (hth : th ≤ (H : ℚ) - 2 * margin) :
    margin ≤ (bounceUpdate tw th x y vx vy).1 ∧
    (bounceUpdate tw th x y vx vy).1 + tw ≤ (W : ℚ) - margin ∧
    margin ≤ (bounceUpdate tw th x y vx vy).2.1 ∧
    (bounceUpdate tw th x y vx vy).2.1 + th ≤ (H : ℚ) - margin := by
  unfold bounceUpdate
  dsimp only
  split_ifs <;> dsimp only at * <;>
    refine ⟨by linarith, by linarith, by linarith, by linarith⟩

/-- C9: bounce containment.  For any initial position and velocity and any
number of frames `n ≥ 1`, after the `n`-th per-frame update and clamp the
sprite's bounding box stays within `[margin, W - margin]` horizontally and
`[margin, H - margin]` vertically, provided the measured text dimensions
fit between the margins. -/
theorem C9_bounce_containment (tw th x y vx vy : ℚ) (n : Nat)
    (htw : tw ≤ (W : ℚ) - 2 * margin) (hth : th ≤ (H : ℚ) - 2 * margin)
    (hn : 0 < n) :
    margin ≤ (bounceIter tw th n (x, y, vx, vy)).1 ∧
    (bounceIter tw th n (x, y, vx, vy)).1 + tw ≤ (W : ℚ) - margin ∧
    margin ≤ (bounceIter tw th n (x, y, vx, vy)).2.1 ∧
    (bounceIter tw th n (x, y, vx, vy)).2.1 + th ≤ (H : ℚ) - margin := by
  cases n with
  | zero => omega
  | succ m =>
    have h := bounceUpdate_contained tw th
      (bounceIter tw th m (x, y, vx, vy)).1
      (bounceIter tw th m (x, y, vx, vy)).2.1
      (bounceIter tw th m (x, y, vx, vy)).2.2.1
      (bounceIter tw th m (x, y, vx, vy)).2.2.2 htw hth
    simpa [bounceIter] using h

/-- Witness for C9: one step from the startup position with the largest
text that still fits. -/
theorem C9_bounce_containment_witness :
    margin ≤ (bounceIter ((W : ℚ) - 2 * margin) ((H : ℚ) - 2 * margin) 1
      (40, 80, 13/5, 19/10)).1 ∧
    (bounceIter ((W : ℚ) - 2 * margin) ((H : ℚ) - 2 * margin) 1
      (40, 80, 13/5, 19/10)).1 + ((W : ℚ) - 2 * margin) ≤ (W : ℚ) - margin ∧
    margin ≤ (bounceIter ((W : ℚ) - 2 * margin) ((H : ℚ) - 2 * margin) 1
      (40, 80, 13/5, 19/10)).2.1 ∧
    (bounceIter ((W : ℚ) - 2 * margin) ((H : ℚ) - 2 * margin) 1
      (40, 80, 13/5, 19/10)).2.1 + ((H : ℚ) - 2 * margin) ≤ (H : ℚ) - margin :=
  C9_bounce_containment ((W : ℚ) - 2 * margin) ((H : ℚ) - 2 * margin)
    40 80 (13/5) (19/10) 1 le_rfl le_rfl (by decide)

/-!
## Step lemmas for the 3d-text engine
-/

/-- With no touch, the touch-handling step is a no-op. -/
theorem touchStep_no_touch (s : St) (inp : TickInput) (h : inp.touch = false) :
    touchStep s inp = (s, []) := by
  simp [touchStep, h]

/-- A touch always leaves the engine awake. -/
theorem touchStep_saverOn (s : St) (inp : TickInput) (h : inp.touch = true) :
    (touchStep s inp).1.saverOn = false := by
  simp only [touchStep, h, if_true]
  by_cases hs : s.saverOn <;> simp [hs]

/-- A touch always stamps `last_activity` with the current time. -/
theorem touchStep_lastActivity (s : St) (inp : TickInput) (h : inp.touch = true) :
    (touchStep s inp).1.lastActivity = inp.now := by
  simp only [touchStep, h, if_true]
  by_cases hs : s.saverOn <;> simp [hs]

/-- Sequencing a successful step just feeds its result to the next step. -/
theorem ok_bind {A B : Type} (a : A) (f : A → Except String B) :
    (Except.ok a >>= f : Except String B) = f a := rfl

/-- A write against a failing device always raises. -/
theorem fb_write_ioError (buf : List Nat) : ∃ e, fb_write buf true = .error e := by
  unfold fb_write
  by_cases h : buf.length ≠ FRAME_BYTES
  · exact ⟨"frame size mismatch", by rw [if_pos h]⟩
  · exact ⟨"DeviceIOError", by rw [if_neg h]; rfl⟩

/-- A touch during saver mode with a working device restores the saved
frame and clears the saver state. -/
theorem touchStep_restore (s : St) (inp : TickInput) (F : List Nat)
    (ht : inp.touch = true) (hS : s.saverOn = true) (hsaved : s.saved = some F)
    (hio : inp.ioError = false) (hlen : F.length = FRAME_BYTES) :
    touchStep s inp =
      ({ s with lastActivity := inp.now, saverOn := false, saved := none },
        [Ev.restoreWrite F]) := by
  simp [touchStep, ht, hS, hsaved, fb_write, hlen, hio]

/-- A touch during saver mode with a failing device swallows the restore
error and still clears the saver state. -/
theorem touchStep_restore_failed (s : St) (inp : TickInput) (F : List Nat)
    (ht : inp.touch = true) (hS : s.saverOn = true) (hsaved : s.saved = some F)
    (hio : inp.ioError = true) :
    touchStep s inp =
      ({ s with lastActivity := inp.now, saverOn := false, saved := none },
        [Ev.restoreFailed]) := by
  obtain ⟨e, he⟩ := fb_write_ioError F
  simp [touchStep, ht, hS, hsaved, hio, he]

/-- The idle check fires when awake, strictly past the threshold, and the
device read succeeds. -/
theorem captureStep_fire (inp : TickInput) (s : St) (evs : List Ev)
    (hA : s.saverOn = false) (hI : inp.now - s.lastActivity > IDLE_SEC)
    (hio : inp.ioError = false) :
    captureStep inp (s, evs) = .ok
      ({ s with
          saved := some (fb_read inp.device)
          saverOn := true
          t0 := inp.now
          nextFrame := 0 },
        evs ++ [Ev.capture (fb_read inp.device)]) := by
  simp [captureStep, hA, hI, hio]

/-- The idle check is a no-op when its guard fails. -/
theorem captureStep_skip (inp : TickInput) (se : St × List Ev)
    (h : ¬(se.1.saverOn = false ∧ inp.now - se.1.lastActivity > IDLE_SEC)) :
    captureStep inp se = .ok se := by
  simp only [captureStep]
  rw [if_neg h]

/-- The render step is a no-op while awake. -/
theorem renderStep_skip (tw th : ℚ) (render : ℚ → ℚ → ℚ → List Nat)
    (inp : TickInput) (se : St × List Ev) (h : se.1.saverOn = false) :
    renderStep tw th render inp se = .ok se := by
  simp only [renderStep]
  rw [if_neg]
  simp [h]

/-- The render step is a no-op before the next frame is due. -/
theorem renderStep_notdue (tw th : ℚ) (render : ℚ → ℚ → ℚ → List Nat)
    (inp : TickInput) (se : St × List Ev) (h : ¬ inp.now ≥ se.1.nextFrame) :
    renderStep tw th render inp se = .ok se := by
  simp only [renderStep]
  rw [if_neg]
  rintro ⟨-, hd⟩
  exact h hd

/-- The render step when due: update and clamp the position, write the
rendered frame, schedule the next one. -/
theorem renderStep_fire (tw th : ℚ) (render : ℚ → ℚ → ℚ → List Nat)
    (inp : TickInput) (s : St) (evs : List Ev)
    (hS : s.saverOn = true) (hDue : inp.now ≥ s.nextFrame) (hio : inp.ioError = false)
    (hr : ∀ t a b, (render t a b).length = FRAME_BYTES) :
    renderStep tw th render inp (s, evs) = .ok
      ({ s with
          x := (bounceUpdate tw th s.x s.y s.vx s.vy).1
          y := (bounceUpdate tw th s.x s.y s.vx s.vy).2.1
          vx := (bounceUpdate tw th s.x s.y s.vx s.vy).2.2.1
          vy := (bounceUpdate tw th s.x s.y s.vx s.vy).2.2.2
          nextFrame := inp.now + 1 / ((max FPS 1 : Nat) : ℚ) },
        evs ++ [Ev.renderWrite (render (inp.now - s.t0)
          (bounceUpdate tw th s.x s.y s.vx s.vy).1
          (bounceUpdate tw th s.x s.y s.vx s.vy).2.1)]) := by
  simp [renderStep, hS, hDue, fb_write, hr, hio]

/-- Whatever the render step does on a working device, it succeeds and
leaves the saver flag, saved frame, activity clock and animation origin
untouched. -/
theorem renderStep_preserves (tw th : ℚ) (render : ℚ → ℚ → ℚ → List Nat)
    (inp : TickInput) (s : St) (evs : List Ev)
    (hio : inp.ioError = false) (hr : ∀ t a b, (render t a b).length = FRAME_BYTES) :
    ∃ s2 evs2, renderStep tw th render inp (s, evs) = .ok (s2, evs2) ∧
      s2.saverOn = s.saverOn ∧ s2.saved = s.saved ∧ s2.lastActivity = s.lastActivity ∧
      s2.t0 = s.t0 := by
  by_cases hS : s.saverOn = true
  · by_cases hDue : inp.now ≥ s.nextFrame
    · exact ⟨_, _, renderStep_fire tw th render inp s evs hS hDue hio hr,
        rfl, rfl, rfl, rfl⟩
    · exact ⟨s, evs, renderStep_notdue tw th render inp (s, evs) hDue,
        rfl, rfl, rfl, rfl⟩
  · have h : s.saverOn = false := by simpa using hS
    exact ⟨s, evs, renderStep_skip tw th render inp (s, evs) h, rfl, rfl, rfl, rfl⟩

/-- After a touch (which stamps `last_activity = now`), neither the idle
check nor the render step changes the state: the idle elapsed time is zero
and the saver flag is off. -/
theorem after_touch_no_op (tw th : ℚ) (render : ℚ → ℚ → ℚ → List Nat)
    (inp : TickInput) (p : St × List Ev)
    (hA : p.1.saverOn = false) (hL : p.1.lastActivity = inp.now) :
    captureStep inp p >>= renderStep tw th render inp = .ok p := by
  have hc : captureStep inp p = .ok p := by
    apply captureStep_skip
    rintro ⟨-, hgt⟩
    rw [hL, sub_self] at hgt
    norm_num [IDLE_SEC] at hgt
  rw [hc]
  simpa using renderStep_skip tw th render inp p hA

/-- C7: activity precedence.  If a touch event is available this tick
(whether or not the idle-timeout condition also holds, and whatever the
device does), the tick succeeds and ends in the awake state, never in
saver mode. -/
theorem C7_activity_precedence (tw th : ℚ) (render : ℚ → ℚ → ℚ → List Nat)
    (s : St) (inp : TickInput)
    (ht : inp.touch = true) (hidle : inp.now - s.lastActivity > IDLE_SEC) :
    ∃ s2 evs, tick3d tw th render s inp = .ok (s2, evs) ∧ s2.saverOn = false := by
  refine ⟨(touchStep s inp).1, (touchStep s inp).2, ?_, touchStep_saverOn s inp ht⟩
  show captureStep inp (touchStep s inp) >>= renderStep tw th render inp = _
  rw [after_touch_no_op tw th render inp (touchStep s inp)
    (touchStep_saverOn s inp ht) (touchStep_lastActivity s inp ht)]

/-- Witness for C7: a touch at time 601 on the freshly started engine,
with the idle-timeout condition simultaneously true. -/
theorem C7_activity_precedence_witness :
    ∃ s2 evs,
      tick3d 0 0 (fun _ _ _ => zeroFrame) (initSt 0)
        ⟨true, 601, [], false⟩ = .ok (s2, evs) ∧ s2.saverOn = false :=
  C7_activity_precedence 0 0 (fun _ _ _ => zeroFrame) (initSt 0)
    ⟨true, 601, [], false⟩ rfl (by norm_num [initSt, IDLE_SEC])

/-!
## Step lemmas for the hostname engine
-/

/-- With no touch, the hostname touch-handling step is a no-op. -/
theorem touchStepHn_no_touch (s : HSt) (inp : TickInput) (h : inp.touch = false) :
    touchStepHn s inp = .ok (s, []) := by
  simp [touchStepHn, h]

/-- In the hostname variant, a failing restore write raises out of the
touch-handling step: nothing catches it. -/
theorem touchStepHn_restore_error (s : HSt) (inp : TickInput) (F : List Nat)
    (ht : inp.touch = true) (hS : s.saverOn = true) (hsaved : s.saved = some F)
    (hio : inp.ioError = true) :
    touchStepHn s inp = .error "DeviceIOError" := by
  simp [touchStepHn, ht, hS, hsaved, fb_write_hn, hio]

/-- The hostname idle check fires when awake and strictly past the
threshold. -/
theorem captureStepHn_fire (inp : TickInput) (s : HSt) (evs : List Ev)
    (hA : s.saverOn = false) (hI : inp.now - s.lastActivity > IDLE_SEC_hn)
    (hio : inp.ioError = false) :
    captureStepHn inp (s, evs) = .ok
      ({ s with
          saved := some (fb_read inp.device)
          saverOn := true
          nextDraw := 0 },
        evs ++ [Ev.capture (fb_read inp.device)]) := by
  simp [captureStepHn, hA, hI, hio]

/-- The hostname idle check is a no-op when its guard fails. -/
theorem captureStepHn_skip (inp : TickInput) (se : HSt × List Ev)
    (h : ¬(se.1.saverOn = false ∧ inp.now - se.1.lastActivity > IDLE_SEC_hn)) :
    captureStepHn inp se = .ok se := by
  simp only [captureStepHn]
  rw [if_neg h]

/-- The hostname render step when due: consume two random draws for the
text position, write the rendered bytes unchecked, schedule the next
draw. -/
theorem renderStepHn_fire (tw th : Nat) (rb : Nat → Nat → List Nat)
    (inp : TickInput) (s : HSt) (evs : List Ev)
    (hS : s.saverOn = true) (hDue : inp.now ≥ s.nextDraw) (hio : inp.ioError = false) :
    renderStepHn tw th rb inp (s, evs) = .ok
      ({ s with
          rng := (randint 0 (max 0 (H - th)) ((randint 0 (max 0 (W - tw)) s.rng).2)).2
          nextDraw := inp.now + INTERVAL },
        evs ++ [Ev.renderWrite (rb (randint 0 (max 0 (W - tw)) s.rng).1
          (randint 0 (max 0 (H - th)) ((randint 0 (max 0 (W - tw)) s.rng).2)).1)]) := by
  simp [renderStepHn, hS, hDue, fb_write_hn, hio]

/-- The hostname render step succeeds on a working device and leaves the
saver flag, saved frame and activity clock untouched. -/
theorem renderStepHn_preserves (tw th : Nat) (rb : Nat → Nat → List Nat)
    (inp : TickInput) (s : HSt) (evs : List Ev) (hio : inp.ioError = false) :
    ∃ s2 evs2, renderStepHn tw th rb inp (s, evs) = .ok (s2, evs2) ∧
      s2.saverOn = s.saverOn ∧ s2.saved = s.saved ∧ s2.lastActivity = s.lastActivity := by
  by_cases h : s.saverOn = true ∧ inp.now ≥ s.nextDraw
  · exact ⟨_, _, renderStepHn_fire tw th rb inp s evs h.1 h.2 hio, rfl, rfl, rfl⟩
  · refine ⟨s, evs, ?_, rfl, rfl, rfl⟩
    simp only [renderStepHn]
    rw [if_neg h]

/-- C8: strict idle threshold.  In the 3d-text and hostname variants, an
untouched tick on a working device succeeds, the engine enters saver mode
iff the elapsed idle time strictly exceeds the variant's threshold (and
the frame read by `fb_read` is then the one saved), and at exactly the
threshold the tick changes nothing and captures nothing. -/
theorem C8_strict_idle_threshold :
    (∀ (tw th : ℚ) (render : ℚ → ℚ → ℚ → List Nat) (s : St) (inp : TickInput),
      (∀ t a b, (render t a b).length = FRAME_BYTES) →
      s.saverOn = false → inp.touch = false → inp.ioError = false →
      ∃ s2 evs, tick3d tw th render s inp = .ok (s2, evs) ∧
        (s2.saverOn = true ↔ inp.now - s.lastActivity > IDLE_SEC) ∧
        (s2.saverOn = true → s2.saved = some (fb_read inp.device)) ∧
        (inp.now - s.lastActivity = IDLE_SEC → s2 = s ∧ evs = [])) ∧
    (∀ (tw th : Nat) (rb : Nat → Nat → List Nat) (s : HSt) (inp : TickInput),
      s.saverOn = false → inp.touch = false → inp.ioError = false →
      ∃ s2 evs, tickHn tw th rb s inp = .ok (s2, evs) ∧
        (s2.saverOn = true ↔ inp.now - s.lastActivity > IDLE_SEC_hn) ∧
        (inp.now - s.lastActivity = IDLE_SEC_hn → s2 = s ∧ evs = [])) := by
  constructor
  · intro tw th render s inp hr hA hT hio
    by_cases hI : inp.now - s.lastActivity > IDLE_SEC
    · obtain ⟨s2, evs2, hrend, hpA, hpSaved, -, -⟩ :=
        renderStep_preserves tw th render inp
          { s with
              saved := some (fb_read inp.device)
              saverOn := true
              t0 := inp.now
              nextFrame := 0 }
          ([] ++ [Ev.capture (fb_read inp.device)]) hio hr
      refine ⟨s2, evs2, ?_, ?_, ?_, ?_⟩
      · show captureStep inp (touchStep s inp) >>= renderStep tw th render inp = _
        rw [touchStep_no_touch s inp hT, captureStep_fire inp s [] hA hI hio]
        exact hrend
      · rw [hpA]
        exact iff_of_true rfl hI
      · intro _
        rw [hpSaved]
      · intro hEq
        rw [hEq] at hI
        exact absurd hI (lt_irrefl _)
    · refine ⟨s, [], ?_, iff_of_false (by simp [hA]) hI, ?_, fun _ => ⟨rfl, rfl⟩⟩
      · show captureStep inp (touchStep s inp) >>= renderStep tw th render inp = _
        rw [touchStep_no_touch s inp hT,
          captureStep_skip inp (s, []) (by rintro ⟨-, h⟩; exact hI h)]
        exact renderStep_skip tw th render inp (s, []) hA
      · intro h
        rw [hA] at h
        cases h
  · intro tw th rb s inp hA hT hio
    by_cases hI : inp.now - s.lastActivity > IDLE_SEC_hn
    · obtain ⟨s2, evs2, hrend, hpA, -, -⟩ :=
        renderStepHn_preserves tw th rb inp
          { s with
              saved := some (fb_read inp.device)
              saverOn := true
              nextDraw := 0 }
          ([] ++ [Ev.capture (fb_read inp.device)]) hio
      refine ⟨s2, evs2, ?_, ?_, ?_⟩
      · show (touchStepHn s inp >>= captureStepHn inp) >>= renderStepHn tw th rb inp = _
        rw [touchStepHn_no_touch s inp hT]
        show captureStepHn inp (s, []) >>= renderStepHn tw th rb inp = _
        rw [captureStepHn_fire inp s [] hA hI hio]
        exact hrend
      · rw [hpA]
        exact iff_of_true rfl hI
      · intro hEq
        rw [hEq] at hI
        exact absurd hI (lt_irrefl _)
    · refine ⟨s, [], ?_, iff_of_false (by simp [hA]) hI, fun _ => ⟨rfl, rfl⟩⟩
      show (touchStepHn s inp >>= captureStepHn inp) >>= renderStepHn tw th rb inp = _
      rw [touchStepHn_no_touch s inp hT]
      show captureStepHn inp (s, []) >>= renderStepHn tw th rb inp = _
      rw [captureStepHn_skip inp (s, []) (by rintro ⟨-, h⟩; exact hI h)]
      obtain ⟨s2, evs2, hrend, -, -, -⟩ := renderStepHn_preserves tw th rb inp s [] hio
      -- while awake the render step is a no-op
      show renderStepHn tw th rb inp (s, []) = _
      simp only [renderStepHn]
      rw [if_neg]
      rintro ⟨h, -⟩
      rw [hA] at h
      cases h

/-- Witness for C8: both variants, freshly started, polled at one time
unit past their thresholds. -/
theorem C8_strict_idle_threshold_witness :
    (∃ s2 evs,
      tick3d 0 0 (fun _ _ _ => zeroFrame) (initSt 0) ⟨false, 601, [], false⟩ =
        .ok (s2, evs) ∧
      (s2.saverOn = true ↔ (601 : ℚ) - (initSt 0).lastActivity > IDLE_SEC) ∧
      (s2.saverOn = true → s2.saved = some (fb_read [])) ∧
      ((601 : ℚ) - (initSt 0).lastActivity = IDLE_SEC → s2 = initSt 0 ∧ evs = [])) ∧
    (∃ s2 evs,
      tickHn 0 0 (fun _ _ => []) ⟨0, false, none, 0, []⟩ ⟨false, 11, [], false⟩ =
        .ok (s2, evs) ∧
      (s2.saverOn = true ↔ (11 : ℚ) - (0 : ℚ) > IDLE_SEC_hn) ∧
      ((11 : ℚ) - (0 : ℚ) = IDLE_SEC_hn → s2 = ⟨0, false, none, 0, []⟩ ∧ evs = [])) :=
  ⟨C8_strict_idle_threshold.1 0 0 (fun _ _ _ => zeroFrame) (initSt 0)
      ⟨false, 601, [], false⟩ (fun _ _ _ => by simp [zeroFrame]) rfl rfl rfl,
   C8_strict_idle_threshold.2 0 0 (fun _ _ => []) ⟨0, false, none, 0, []⟩
      ⟨false, 11, [], false⟩ rfl rfl rfl⟩

/-- An untouched tick during saver mode on a working device succeeds and
leaves the saver flag and the saved frame untouched. -/
theorem tick3d_saver_preserved (tw th : ℚ) (render : ℚ → ℚ → ℚ → List Nat)
    (s : St) (inp : TickInput)
    (hS : s.saverOn = true) (hT : inp.touch = false) (hio : inp.ioError = false)
    (hr : ∀ t a b, (render t a b).length = FRAME_BYTES) :
    ∃ s2 evs, tick3d tw th render s inp = .ok (s2, evs) ∧
      s2.saverOn = true ∧ s2.saved = s.saved := by
  obtain ⟨s2, evs2, hrend, hpA, hpS, -, -⟩ :=
    renderStep_preserves tw th render inp s [] hio hr
  refine ⟨s2, evs2, ?_, by rw [hpA, hS], hpS⟩
  show captureStep inp (touchStep s inp) >>= renderStep tw th render inp = _
  rw [touchStep_no_touch s inp hT,
    captureStep_skip inp (s, []) (by rintro ⟨h, -⟩; rw [hS] at h; cases h)]
  exact hrend

/-- Across any run of untouched ticks on a working device, saver mode and
the saved frame persist unchanged. -/
theorem run3d_saver_preserved (tw th : ℚ) (render : ℚ → ℚ → ℚ → List Nat)
    (hr : ∀ t a b, (render t a b).length = FRAME_BYTES) :
    ∀ mids : List TickInput, (∀ i ∈ mids, i.touch = false ∧ i.ioError = false) →
    ∀ s : St, s.saverOn = true →
    ∃ s2 evs, run3d tw th render s mids = .ok (s2, evs) ∧
      s2.saverOn = true ∧ s2.saved = s.saved := by
  intro mids
  induction mids with
  | nil =>
    intro _ s hS
    exact ⟨s, [], rfl, hS, rfl⟩
  | cons i rest ih =>
    intro hm s hS
    obtain ⟨s1, evs1, h1, hS1, hsv1⟩ :=
      tick3d_saver_preserved tw th render s i hS (hm i (by simp)).1 (hm i (by simp)).2 hr
    obtain ⟨s2, evs2, h2, hS2, hsv2⟩ := ih (fun j hj => hm j (by simp [hj])) s1 hS1
    refine ⟨s2, evs1 ++ evs2, ?_, hS2, by rw [hsv2, hsv1]⟩
    simp only [run3d, h1, h2]

/-- C1: round-trip restore.  Starting awake, a tick whose idle time has
strictly passed the threshold captures `fb_read` of the device contents;
across any following untouched working ticks the saved buffer is never
modified; and the first touch tick then writes back byte-for-byte exactly
the bytes originally read, leaving saver mode with the frame dropped. -/
theorem C1_roundtrip_restore (tw th : ℚ) (render : ℚ → ℚ → ℚ → List Nat)
    (s : St) (inpC : TickInput) (mids : List TickInput) (inpT : TickInput)
    (hr : ∀ t a b, (render t a b).length = FRAME_BYTES)
    (hA : s.saverOn = false) (hCt : inpC.touch = false) (hCio : inpC.ioError = false)
    (hI : inpC.now - s.lastActivity > IDLE_SEC)
    (hmids : ∀ i ∈ mids, i.touch = false ∧ i.ioError = false)
    (hTt : inpT.touch = true) (hTio : inpT.ioError = false) :
    ∃ s1 evs1, tick3d tw th render s inpC = .ok (s1, evs1) ∧
      s1.saved = some (fb_read inpC.device) ∧ s1.saverOn = true ∧
      ∃ s2 evs2, run3d tw th render s1 mids = .ok (s2, evs2) ∧
        s2.saved = some (fb_read inpC.device) ∧ s2.saverOn = true ∧
        ∃ s3 evs3, tick3d tw th render s2 inpT = .ok (s3, evs3) ∧
          Ev.restoreWrite (fb_read inpC.device) ∈ evs3 ∧
          s3.saverOn = false ∧ s3.saved = none := by
  obtain ⟨s1, evs1, hrend1, hpA1, hpS1, -, -⟩ :=
    renderStep_preserves tw th render inpC
      { s with
          saved := some (fb_read inpC.device)
          saverOn := true
          t0 := inpC.now
          nextFrame := 0 }
      ([] ++ [Ev.capture (fb_read inpC.device)]) hCio hr
  have htick1 : tick3d tw th render s inpC = .ok (s1, evs1) := by
    show captureStep inpC (touchStep s inpC) >>= renderStep tw th render inpC = _
    rw [touchStep_no_touch s inpC hCt, captureStep_fire inpC s [] hA hI hCio]
    exact hrend1
  have hs1A : s1.saverOn = true := by rw [hpA1]
  have hs1S : s1.saved = some (fb_read inpC.device) := by rw [hpS1]
  obtain ⟨s2, evs2, hrun, hs2A, hs2S⟩ :=
    run3d_saver_preserved tw th render hr mids hmids s1 hs1A
  have hs2S' : s2.saved = some (fb_read inpC.device) := by rw [hs2S, hs1S]
  have hres := touchStep_restore s2 inpT (fb_read inpC.device)
    hTt hs2A hs2S' hTio (fb_read_length _)
  have htick3 : tick3d tw th render s2 inpT =
      .ok ({ s2 with lastActivity := inpT.now, saverOn := false, saved := none },
        [Ev.restoreWrite (fb_read inpC.device)]) := by
    show captureStep inpT (touchStep s2 inpT) >>= renderStep tw th render inpT = _
    rw [hres]
    exact after_touch_no_op tw th render inpT _ rfl rfl
  exact ⟨s1, evs1, htick1, hs1S, hs1A, s2, evs2, hrun, hs2S', hs2A,
    _, _, htick3, by simp, rfl, rfl⟩

/-- Witness for C1: a concrete capture at time 601 of device contents
`[7]`, no intermediate ticks, and a touch at time 602. -/
theorem C1_roundtrip_restore_witness :
    ∃ s1 evs1,
      tick3d 0 0 (fun _ _ _ => zeroFrame) (initSt 0) ⟨false, 601, [7], false⟩ =
        .ok (s1, evs1) ∧
      s1.saved = some (fb_read [7]) ∧ s1.saverOn = true ∧
      ∃ s2 evs2, run3d 0 0 (fun _ _ _ => zeroFrame) s1 [] = .ok (s2, evs2) ∧
        s2.saved = some (fb_read [7]) ∧ s2.saverOn = true ∧
        ∃ s3 evs3,
          tick3d 0 0 (fun _ _ _ => zeroFrame) s2 ⟨true, 602, [], false⟩ =
            .ok (s3, evs3) ∧
          Ev.restoreWrite (fb_read [7]) ∈ evs3 ∧
          s3.saverOn = false ∧ s3.saved = none :=
  C1_roundtrip_restore 0 0 (fun _ _ _ => zeroFrame) (initSt 0)
    ⟨false, 601, [7], false⟩ [] ⟨true, 602, [], false⟩
    (fun _ _ _ => by simp [zeroFrame]) rfl rfl rfl
    (by norm_num [initSt, IDLE_SEC]) (by simp) rfl rfl

/-!
## Step lemmas for the float-hostname engine
-/

/-- With no touch, the float touch-handling step is a no-op. -/
theorem touchStepF_no_touch (s : FSt) (inp : TickInput) (h : inp.touch = false) :
    touchStepF s inp = (s, []) := by
  simp [touchStepF, h]

/-- In the float variant, a failing restore write is swallowed and the
saver state is still cleared. -/
theorem touchStepF_restore_failed (s : FSt) (inp : TickInput) (F : List Nat)
    (ht : inp.touch = true) (hS : s.saverOn = true) (hsaved : s.saved = some F)
    (hio : inp.ioError = true) :
    touchStepF s inp =
      ({ s with
          lastActivity := inp.now
          saverOn := false
          saved := none
          lastT := inp.now
          nextFrame := 0 }, [Ev.restoreFailed]) := by
  obtain ⟨e, he⟩ := fb_write_ioError F
  simp [touchStepF, ht, hS, hsaved, hio, he]

/-- The float idle check is a no-op when its guard fails. -/
theorem captureStepF_skip (host : String) (inp : TickInput) (se : FSt × List Ev)
    (h : ¬(se.1.saverOn = false ∧ inp.now - se.1.lastActivity > IDLE_SEC_float)) :
    captureStepF host inp se = .ok se := by
  simp only [captureStepF]
  rw [if_neg h]

/-- The float render step is a no-op while awake. -/
theorem renderStepF_skip (host : String) (rb : List Particle → List Nat)
    (inp : TickInput) (se : FSt × List Ev) (h : se.1.saverOn = false) :
    renderStepF host rb inp se = .ok se := by
  simp only [renderStepF]
  rw [if_neg]
  simp [h]

/-- After a touch in the float variant, neither the idle check nor the
render step changes the state. -/
theorem after_touchF_no_op (host : String) (rb : List Particle → List Nat)
    (inp : TickInput) (p : FSt × List Ev)
    (hA : p.1.saverOn = false) (hL : p.1.lastActivity = inp.now) :
    captureStepF host inp p >>= renderStepF host rb inp = .ok p := by
  have hc : captureStepF host inp p = .ok p := by
    apply captureStepF_skip
    rintro ⟨-, hgt⟩
    rw [hL, sub_self] at hgt
    norm_num [IDLE_SEC_float] at hgt
  rw [hc]
  simpa using renderStepF_skip host rb inp p hA

/-- C3 counterexample: in the hostname variant, a failing restore write on
a touch tick escapes the loop as an error instead of being swallowed; the
engine does not transition back to awake. -/
theorem C3_counterexample :
    tickHn 0 0 (fun _ _ => []) ⟨0, true, some [5], 0, []⟩ ⟨true, 1, [], true⟩ =
      .error "DeviceIOError" := rfl

/-- C3 (amended): in the 3d-text and float variants a restore-write
failure during a touch tick is caught and discarded and the engine still
transitions to awake with the saved frame dropped; in the hostname variant
the restore write is unguarded, so the failure propagates out of the tick
loop. -/
theorem C3_restore_error_swallowing :
    (∀ (tw th : ℚ) (render : ℚ → ℚ → ℚ → List Nat) (s : St) (inp : TickInput)
      (F : List Nat),
      inp.touch = true → s.saverOn = true → s.saved = some F → inp.ioError = true →
      tick3d tw th render s inp =
        .ok ({ s with lastActivity := inp.now, saverOn := false, saved := none },
          [Ev.restoreFailed])) ∧
    (∀ (host : String) (rb : List Particle → List Nat) (s : FSt) (inp : TickInput)
      (F : List Nat),
      inp.touch = true → s.saverOn = true → s.saved = some F → inp.ioError = true →
      tickF host rb s inp =
        .ok ({ s with
            lastActivity := inp.now
            saverOn := false
            saved := none
            lastT := inp.now
            nextFrame := 0 }, [Ev.restoreFailed])) ∧
    (∀ (tw th : Nat) (rb : Nat → Nat → List Nat) (s : HSt) (inp : TickInput)
      (F : List Nat),
      inp.touch = true → s.saverOn = true → s.saved = some F → inp.ioError = true →
      tickHn tw th rb s inp = .error "DeviceIOError") := by
  refine ⟨?_, ?_, ?_⟩
  · intro tw th render s inp F ht hS hsaved hio
    show captureStep inp (touchStep s inp) >>= renderStep tw th render inp = _
    rw [touchStep_restore_failed s inp F ht hS hsaved hio]
    exact after_touch_no_op tw th render inp _ rfl rfl
  · intro host rb s inp F ht hS hsaved hio
    show captureStepF host inp (touchStepF s inp) >>= renderStepF host rb inp = _
    rw [touchStepF_restore_failed s inp F ht hS hsaved hio]
    exact after_touchF_no_op host rb inp _ rfl rfl
  · intro tw th rb s inp F ht hS hsaved hio
    show (touchStepHn s inp >>= captureStepHn inp) >>= renderStepHn tw th rb inp = _
    rw [touchStepHn_restore_error s inp F ht hS hsaved hio]
    rfl

/-- Witness for C3: concrete failing restores in all three variants. -/
theorem C3_restore_error_swallowing_witness :
    tick3d 0 0 (fun _ _ _ => []) ⟨0, true, some [], 40, 80, 1, 1, 0, 0⟩
        ⟨true, 5, [], true⟩ =
      .ok ({ (⟨0, true, some [], 40, 80, 1, 1, 0, 0⟩ : St) with
          lastActivity := 5, saverOn := false, saved := none },
        [Ev.restoreFailed]) ∧
    tickF "pi" (fun _ => []) ⟨0, true, some [], [], 0, 0, ⟨[], []⟩⟩
        ⟨true, 5, [], true⟩ =
      .ok ({ (⟨0, true, some [], [], 0, 0, ⟨[], []⟩⟩ : FSt) with
          lastActivity := 5
          saverOn := false
          saved := none
          lastT := 5
          nextFrame := 0 }, [Ev.restoreFailed]) ∧
    tickHn 0 0 (fun _ _ => []) ⟨0, true, some [9], 0, []⟩ ⟨true, 2, [], true⟩ =
      .error "DeviceIOError" :=
  ⟨C3_restore_error_swallowing.1 0 0 (fun _ _ _ => [])
      ⟨0, true, some [], 40, 80, 1, 1, 0, 0⟩ ⟨true, 5, [], true⟩ [] rfl rfl rfl rfl,
   C3_restore_error_swallowing.2.1 "pi" (fun _ => [])
      ⟨0, true, some [], [], 0, 0, ⟨[], []⟩⟩ ⟨true, 5, [], true⟩ [] rfl rfl rfl rfl,
   C3_restore_error_swallowing.2.2 0 0 (fun _ _ => [])
      ⟨0, true, some [9], 0, []⟩ ⟨true, 2, [], true⟩ [9] rfl rfl rfl rfl⟩

/-- The float idle check fires when awake and strictly past the threshold:
it captures the frame and rebuilds the entire particle list from the
random stream. -/
theorem captureStepF_fire (host : String) (inp : TickInput) (s : FSt) (evs : List Ev)
    (hA : s.saverOn = false) (hI : inp.now - s.lastActivity > IDLE_SEC_float)
    (hio : inp.ioError = false) :
    captureStepF host inp (s, evs) = .ok
      ({ s with
          saved := some (fb_read inp.device)
          saverOn := true
          particles := (mkParticles host NUM_PARTICLES s.rng).1
          rng := (mkParticles host NUM_PARTICLES s.rng).2
          lastT := inp.now
          nextFrame := 0 },
        evs ++ [Ev.capture (fb_read inp.device)]) := by
  simp [captureStepF, hA, hI, hio]

/-- The float render step when due: advance all particles, write the
rendered frame, schedule the next one. -/
theorem renderStepF_fire (host : String) (rb : List Particle → List Nat)
    (inp : TickInput) (s : FSt) (evs : List Ev)
    (hS : s.saverOn = true) (hDue : inp.now ≥ s.nextFrame) (hio : inp.ioError = false)
    (hr : ∀ l, (rb l).length = FRAME_BYTES) :
    renderStepF host rb inp (s, evs) = .ok
      ({ s with
          particles := (updateParticles host (max (1/1000 : ℚ) (inp.now - s.lastT))
            s.particles s.rng).1
          rng := (updateParticles host (max (1/1000 : ℚ) (inp.now - s.lastT))
            s.particles s.rng).2
          lastT := inp.now
          nextFrame := inp.now + 1 / ((max FPS_float 1 : Nat) : ℚ) },
        evs ++ [Ev.renderWrite (rb (updateParticles host
          (max (1/1000 : ℚ) (inp.now - s.lastT)) s.particles s.rng).1)]) := by
  simp [renderStepF, hS, hDue, fb_write, hr, hio]

/-- The float render step succeeds on a working device and leaves the
saver flag and saved frame untouched. -/
theorem renderStepF_preserves (host : String) (rb : List Particle → List Nat)
    (inp : TickInput) (s : FSt) (evs : List Ev)
    (hio : inp.ioError = false) (hr : ∀ l, (rb l).length = FRAME_BYTES) :
    ∃ s2 evs2, renderStepF host rb inp (s, evs) = .ok (s2, evs2) ∧
      s2.saverOn = s.saverOn ∧ s2.saved = s.saved := by
  by_cases hS : s.saverOn = true
  · by_cases hDue : inp.now ≥ s.nextFrame
    · exact ⟨_, _, renderStepF_fire host rb inp s evs hS hDue hio hr, rfl, rfl⟩
    · refine ⟨s, evs, ?_, rfl, rfl⟩
      simp only [renderStepF]
      rw [if_neg]
      rintro ⟨-, h⟩
      exact hDue h
  · have h : s.saverOn = false := by simpa using hS
    exact ⟨s, evs, renderStepF_skip host rb inp (s, evs) h, rfl, rfl⟩

/-- C5 counterexample: in the 3d-text variant, two capture ticks identical
except for the sprite position entering saver mode keep their different
positions: the `Awake → SaverActive` transition does not reinitialise the
bounce scene state, so a new saver session continues from the previous
session's position. -/
theorem C5_counterexample :
    ∃ r1 r2 : St × List Ev,
      tick3d 0 0 (fun _ _ _ => zeroFrame) ⟨0, false, none, 100, 80, 1, 1, 0, 0⟩
        ⟨false, 601, [], false⟩ = .ok r1 ∧
      tick3d 0 0 (fun _ _ _ => zeroFrame) ⟨0, false, none, 200, 80, 1, 1, 0, 0⟩
        ⟨false, 601, [], false⟩ = .ok r2 ∧
      r1.1.saverOn = true ∧ r2.1.saverOn = true ∧
      r1.1.x = 101 ∧ r2.1.x = 201 ∧ r1.1.x ≠ r2.1.x := by
  have hr : ∀ t a b : ℚ, ((fun _ _ _ => zeroFrame) t a b : List Nat).length = FRAME_BYTES :=
    fun _ _ _ => by simp [zeroFrame]
  have mkq : ∀ q : ℚ, ∃ r : St × List Ev,
      tick3d 0 0 (fun _ _ _ => zeroFrame) ⟨0, false, none, q, 80, 1, 1, 0, 0⟩
        ⟨false, 601, [], false⟩ = .ok r ∧
      r.1.saverOn = true ∧ r.1.x = (bounceUpdate 0 0 q 80 1 1).1 := by
    intro q
    have hren := renderStep_fire 0 0 (fun _ _ _ => zeroFrame) ⟨false, 601, [], false⟩
      { (⟨0, false, none, q, 80, 1, 1, 0, 0⟩ : St) with
          saved := some (fb_read [])
          saverOn := true
          t0 := 601
          nextFrame := 0 }
      ([] ++ [Ev.capture (fb_read [])]) rfl (by show (601 : ℚ) ≥ 0; norm_num) rfl hr
    have heq : tick3d 0 0 (fun _ _ _ => zeroFrame) ⟨0, false, none, q, 80, 1, 1, 0, 0⟩
        ⟨false, 601, [], false⟩ =
        captureStep ⟨false, 601, [], false⟩
          (touchStep ⟨0, false, none, q, 80, 1, 1, 0, 0⟩ ⟨false, 601, [], false⟩) >>=
        renderStep 0 0 (fun _ _ _ => zeroFrame) ⟨false, 601, [], false⟩ := rfl
    rw [touchStep_no_touch ⟨0, false, none, q, 80, 1, 1, 0, 0⟩ ⟨false, 601, [], false⟩ rfl,
      captureStep_fire ⟨false, 601, [], false⟩ ⟨0, false, none, q, 80, 1, 1, 0, 0⟩ []
        rfl (by show (601 : ℚ) - 0 > IDLE_SEC; norm_num [IDLE_SEC]) rfl,
      ok_bind] at heq
    exact ⟨_, heq.trans hren, rfl, rfl⟩
  obtain ⟨r1, h1, hA1, hx1⟩ := mkq 100
  obtain ⟨r2, h2, hA2, hx2⟩ := mkq 200
  have e1 : (bounceUpdate 0 0 (100 : ℚ) 80 1 1).1 = 101 := by
    norm_num [bounceUpdate, margin, EXTRUDE, W, H]
  have e2 : (bounceUpdate 0 0 (200 : ℚ) 80 1 1).1 = 201 := by
    norm_num [bounceUpdate, margin, EXTRUDE, W, H]
  refine ⟨r1, r2, h1, h2, hA1, hA2, ?_, ?_, ?_⟩
  · rw [hx1]
    exact e1
  · rw [hx2]
    exact e2
  · rw [hx1, hx2, e1, e2]
    norm_num

/-- C5 (amended): scene state on saver entry.  The float variant rebuilds
its whole particle list from the random stream on every
`Awake → SaverActive` transition, so the new session's scene is
independent of the previous session's particles; the 3d-text variant
resets only its animation clock `t0`, while the bounce position and
velocity carry over from the previous session (the transition tick simply
continues them with one ordinary bounce update); the single-draw variant
has no persistent scene state. -/
theorem C5_scene_state_on_entry :
    (∀ (host : String) (rb : List Particle → List Nat) (s : FSt) (ps : List Particle)
      (inp : TickInput),
      (∀ l, (rb l).length = FRAME_BYTES) →
      s.saverOn = false → inp.touch = false → inp.ioError = false →
      inp.now - s.lastActivity > IDLE_SEC_float →
      ∃ r, tickF host rb s inp = .ok r ∧
        tickF host rb { s with particles := ps } inp = .ok r ∧
        r.1.saverOn = true) ∧
    (∀ (tw th : ℚ) (render : ℚ → ℚ → ℚ → List Nat) (s : St) (inp : TickInput),
      (∀ t a b, (render t a b).length = FRAME_BYTES) →
      s.saverOn = false → inp.touch = false → inp.ioError = false →
      inp.now - s.lastActivity > IDLE_SEC → inp.now ≥ 0 →
      ∃ s2 evs, tick3d tw th render s inp = .ok (s2, evs) ∧ s2.saverOn = true ∧
        s2.t0 = inp.now ∧
        s2.x = (bounceUpdate tw th s.x s.y s.vx s.vy).1 ∧
        s2.y = (bounceUpdate tw th s.x s.y s.vx s.vy).2.1 ∧
        s2.vx = (bounceUpdate tw th s.x s.y s.vx s.vy).2.2.1 ∧
        s2.vy = (bounceUpdate tw th s.x s.y s.vx s.vy).2.2.2) := by
  constructor
  · intro host rb s ps inp hr hA hT hio hI
    obtain ⟨s2, evs2, hrend, hpA, -⟩ :=
      renderStepF_preserves host rb inp
        { s with
            saved := some (fb_read inp.device)
            saverOn := true
            particles := (mkParticles host NUM_PARTICLES s.rng).1
            rng := (mkParticles host NUM_PARTICLES s.rng).2
            lastT := inp.now
            nextFrame := 0 }
        ([] ++ [Ev.capture (fb_read inp.device)]) hio hr
    refine ⟨(s2, evs2), ?_, ?_, by rw [hpA]⟩
    · show captureStepF host inp (touchStepF s inp) >>= renderStepF host rb inp = _
      rw [touchStepF_no_touch s inp hT, captureStepF_fire host inp s [] hA hI hio]
      exact hrend
    · show captureStepF host inp (touchStepF { s with particles := ps } inp) >>=
        renderStepF host rb inp = _
      rw [touchStepF_no_touch { s with particles := ps } inp hT,
        captureStepF_fire host inp { s with particles := ps } [] hA hI hio]
      exact hrend
  · intro tw th render s inp hr hA hT hio hI hn0
    refine ⟨{ s with
        saved := some (fb_read inp.device)
        saverOn := true
        t0 := inp.now
        x := (bounceUpdate tw th s.x s.y s.vx s.vy).1
        y := (bounceUpdate tw th s.x s.y s.vx s.vy).2.1
        vx := (bounceUpdate tw th s.x s.y s.vx s.vy).2.2.1
        vy := (bounceUpdate tw th s.x s.y s.vx s.vy).2.2.2
        nextFrame := inp.now + 1 / ((max FPS 1 : Nat) : ℚ) },
      [] ++ [Ev.capture (fb_read inp.device)] ++
        [Ev.renderWrite (render (inp.now - inp.now)
          (bounceUpdate tw th s.x s.y s.vx s.vy).1
          (bounceUpdate tw th s.x s.y s.vx s.vy).2.1)],
      ?_, rfl, rfl, rfl, rfl, rfl, rfl⟩
    show captureStep inp (touchStep s inp) >>= renderStep tw th render inp = _
    rw [touchStep_no_touch s inp hT, captureStep_fire inp s [] hA hI hio]
    exact renderStep_fire tw th render inp _ _ rfl hn0 hio hr

/-- Witness for C5: a concrete float capture tick with two different prior
particle lists, and a concrete 3d-text capture tick. -/
theorem C5_scene_state_on_entry_witness :
    (∃ r, tickF "pi" (fun _ => zeroFrame) ⟨0, false, none, [], 0, 0, ⟨[], []⟩⟩
        ⟨false, 11, [], false⟩ = .ok r ∧
      tickF "pi" (fun _ => zeroFrame)
        { (⟨0, false, none, [], 0, 0, ⟨[], []⟩⟩ : FSt) with particles := [] }
        ⟨false, 11, [], false⟩ = .ok r ∧
      r.1.saverOn = true) ∧
    (∃ s2 evs, tick3d 0 0 (fun _ _ _ => zeroFrame) (initSt 0) ⟨false, 601, [], false⟩ =
        .ok (s2, evs) ∧ s2.saverOn = true ∧
      s2.t0 = 601 ∧
      s2.x = (bounceUpdate 0 0 (initSt 0).x (initSt 0).y (initSt 0).vx (initSt 0).vy).1 ∧
      s2.y = (bounceUpdate 0 0 (initSt 0).x (initSt 0).y (initSt 0).vx (initSt 0).vy).2.1 ∧
      s2.vx = (bounceUpdate 0 0 (initSt 0).x (initSt 0).y (initSt 0).vx (initSt 0).vy).2.2.1 ∧
      s2.vy = (bounceUpdate 0 0 (initSt 0).x (initSt 0).y (initSt 0).vx (initSt 0).vy).2.2.2) :=
  ⟨C5_scene_state_on_entry.1 "pi" (fun _ => zeroFrame)
      ⟨0, false, none, [], 0, 0, ⟨[], []⟩⟩ [] ⟨false, 11, [], false⟩
      (fun _ => by simp [zeroFrame]) rfl rfl rfl
      (by show (11 : ℚ) - 0 > IDLE_SEC_float; norm_num [IDLE_SEC_float]),
   C5_scene_state_on_entry.2 0 0 (fun _ _ _ => zeroFrame) (initSt 0)
      ⟨false, 601, [], false⟩ (fun _ _ _ => by simp [zeroFrame]) rfl rfl rfl
      (by show (601 : ℚ) - (initSt 0).lastActivity > IDLE_SEC; norm_num [initSt, IDLE_SEC])
      (by norm_num)⟩

end FbSaver
